import Mathlib

/-!
Verification of the URL threat-check pipeline of the URL-Filtering-Website
repository (src/App.tsx). The source file holds two variants of the
URLChecker component:

* a local-demo variant (lines 1-370): trims and validates the input,
  prepends a scheme when missing, short-circuits on a local denylist of
  suspicious substrings and a dotted-IPv4 pattern, and otherwise simulates
  the external call with a delay followed by an "example" substring test;
* an API variant (lines 371-501): validates the input, builds a Safe
  Browsing threatMatches:find request, dispatches it over fetch, and maps
  the response (matches list, non-2xx status, network failure) to a
  user-facing message.

Both variants are modelled as pure functions from the input URL and the
outcome of the single awaited operation to the list of observable state
transitions (message, result type, loading flag, transport invocation)
that the component performs, in program order. React state setters become
events; the spec vocabulary (Verdict Safe / Unsafe / Invalid / Pending /
Unknown) is recovered from the emitted messages and result types.
-/

/-- JS Array-style substring occurrence on character lists: the pattern
occurs contiguously somewhere in the list. -/
def listIncludes (pat : List Char) : List Char → Bool
  | [] => pat.isEmpty
  | c :: rest => pat.isPrefixOf (c :: rest) || listIncludes pat rest

/-- JS String.prototype.includes. -/
def strIncludes (s pat : String) : Bool := listIncludes pat.data s.data

/-- JS String.prototype.startsWith. -/
def strStartsWith (s p : String) : Bool := p.data.isPrefixOf s.data

/-- JS String.prototype.toLowerCase. -/
def toLowerCase (s : String) : String := String.mk (s.data.map Char.toLower)

/-- JS String.prototype.trim: remove leading and trailing whitespace. -/
def jsTrim (s : String) : String :=
  String.mk (((s.data.dropWhile Char.isWhitespace).reverse.dropWhile
    Char.isWhitespace).reverse)

/-- Consume the maximal run of leading decimal digits, returning its length
and the remainder. -/
def munchDigits : List Char → Nat × List Char
  | [] => (0, [])
  | c :: rest =>
    if c.isDigit then
      let p := munchDigits rest
      (p.1 + 1, p.2)
    else (0, c :: rest)

/-- Strip a leading URL scheme: some remainder after https:// or http://,
none when neither scheme is present. -/
def schemeRest (input : String) : Option (List Char) :=
  if strStartsWith input "https://" then some (input.data.drop 8)
  else if strStartsWith input "http://" then some (input.data.drop 7)
  else none

/-- Match one to three digits followed by a literal dot, as the regex
fragment matching a dotted-quad octet does, returning the remainder. -/
def octetDot (cs : List Char) : Option (List Char) :=
  let p := munchDigits cs
  if 1 ≤ p.1 ∧ p.1 ≤ 3 then
    match p.2 with
    | '.' :: r => some r
    | _ => none
  else none

/-- The demo variant's anchored dotted-IPv4 test (line 69 of the source):
the string starts with http:// or https:// followed by four runs of one to
three digits separated by dots. -/
def ipPatternTest (s : String) : Bool :=
  match schemeRest s with
  | none => false
  | some cs =>
    match octetDot cs with
    | none => false
    | some cs₁ =>
      match octetDot cs₁ with
      | none => false
      | some cs₂ =>
        match octetDot cs₂ with
        | none => false
        | some cs₃ => decide (1 ≤ (munchDigits cs₃).1)

/-- The demo variant's denylist of suspicious substrings (lines 41-45). -/
def MALICIOUS_PATTERNS : List String :=
  ["malware", "phishing", "virus", "trojan", "worm", "spyware", "ransomware",
   "hack", "crack", "keygen", "pirate", "warez", "xxx", "porn", "adult",
   "free-iphone", "free-gift", "win-prize", "you-won", "lottery"]

/-- Demo variant lines 58-75: the URL is suspicious when its lowercased
text contains any denylist pattern, or when the raw text matches the
dotted-IPv4 pattern. -/
def isSuspiciousURL (urlToCheck : String) : Bool :=
  let lowerUrl := toLowerCase urlToCheck
  MALICIOUS_PATTERNS.any (fun pattern => strIncludes lowerUrl pattern) ||
    ipPatternTest urlToCheck

/-- Modelled from the spec: both variants delegate validation to the
platform URL constructor (new URL), which is not part of this repository.
Following section 4.1 of the spec, the validator accepts a scheme prefix
http:// or https:// followed by a nonempty authority of host characters
(letters, digits, dots, hyphens, underscores, and a colon for an optional
port), then an optional path/query/fragment; anything else, in particular
input without a scheme or a host containing whitespace, is rejected. -/
def isValidURL (input : String) : Bool :=
  match schemeRest input with
  | none => false
  | some cs =>
    let auth := cs.takeWhile fun c => !(c == '/') && !(c == '?') && !(c == '#')
    !auth.isEmpty &&
      auth.all fun c => c.isAlphanum || c == '.' || c == '-' || c == ':' || c == '_'

/-- The outbound Safe Browsing request payload (API variant lines 411-427). -/
structure ThreatQuery where
  clientId : String
  clientVersion : String
  threatTypes : List String
  platformTypes : List String
  threatEntryTypes : List String
  threatEntries : List String
deriving DecidableEq

/-- One element of the matches array of the lookup response. -/
structure ThreatMatch where
  threatType : String
deriving DecidableEq

/-- A syntactically valid JSON response body: matchList models the
response's matches field, either absent (none) or an array of matches. -/
structure ApiResponse where
  matchList : Option (List ThreatMatch)
deriving DecidableEq

/-- Outcome of the awaited fetch in the API variant: either the promise
resolves with a status and a body-parse outcome, or it rejects with a
transport-level error message. -/
inductive TransportResult
  | response (status : Nat) (body : Except String ApiResponse)
  | connectionFailure (msg : String)

/-- The demo variant's resultType state values (line 7 of the source). -/
inductive ResultType
  | rtNone
  | rtSafe
  | rtUnsafe
  | rtWarning
  | rtLoading
deriving DecidableEq

/-- One observable action of a checkURL invocation, in program order. -/
inductive Event
  | setMessage (m : String)
  | setResultType (t : ResultType)
  | setLoading (b : Bool)
  | transportCall (q : Option ThreatQuery)
deriving DecidableEq

/-- Outcome of the input stage: the spec contract
normalize(raw) = CanonicalURL or Invalid, with the Invalid reason split
into the empty-input and malformed-URL cases the source distinguishes. -/
inductive NormResult
  | invalidEmpty
  | invalidMalformed
  | canonical (url : String)
deriving DecidableEq

/-- The spec's verdict state space (section 3 of the spec). -/
inductive Verdict
  | Safe
  | Unsafe
  | Invalid
  | Pending
  | Idle
  | Unknown (reason : String)
deriving DecidableEq

/-- All messages set during a run, in order. -/
def messages (es : List Event) : List String :=
  es.filterMap fun e =>
    match e with
    | .setMessage m => some m
    | _ => none

/-- All resultType transitions of a run, in order. -/
def rtEvents (es : List Event) : List ResultType :=
  es.filterMap fun e =>
    match e with
    | .setResultType t => some t
    | _ => none

/-- All loading-flag transitions of a run, in order. -/
def loadingEvents (es : List Event) : List Bool :=
  es.filterMap fun e =>
    match e with
    | .setLoading b => some b
    | _ => none

/-- All transport invocations of a run (payload when the variant builds a
ThreatQuery, none for the demo variant's simulated call). -/
def transportEvents (es : List Event) : List (Option ThreatQuery) :=
  es.filterMap fun e =>
    match e with
    | .transportCall q => some q
    | _ => none

/-- Number of times the transport is invoked during a run. -/
def transportCount (es : List Event) : Nat := (transportEvents es).length

/-- The message left on screen when the run finishes. -/
def finalMessage (es : List Event) : Option String := (messages es).getLast?

/-- The resultType left when the run finishes. -/
def finalRT (es : List Event) : Option ResultType := (rtEvents es).getLast?

/-- The component state the events act upon. -/
structure UIState where
  message : String
  resultType : ResultType
  isLoading : Bool
deriving DecidableEq

/-- Effect of one event on the component state. -/
def applyEvent (s : UIState) : Event → UIState
  | .setMessage m => { s with message := m }
  | .setResultType t => { s with resultType := t }
  | .setLoading b => { s with isLoading := b }
  | .transportCall _ => s

/-- Run a list of events against a starting state. -/
def runEvents (s : UIState) (es : List Event) : UIState := es.foldl applyEvent s

/-- A resultType that the spec maps to a terminal verdict
(Safe, Unsafe, or Unknown via the warning state). -/
def terminalRT (t : ResultType) : Bool :=
  match t with
  | .rtSafe => true
  | .rtUnsafe => true
  | .rtWarning => true
  | _ => false

/-- A verdict that ends a check (Safe, Unsafe, or Unknown). -/
def terminalVerdict (v : Verdict) : Bool :=
  match v with
  | .Safe => true
  | .Unsafe => true
  | .Unknown _ => true
  | _ => false

namespace Demo

/-- Demo variant lines 88-92: the string actually checked, with https://
prepended when the raw input does not itself start with a scheme. -/
def urlToCheck (url : String) : String :=
  if strStartsWith url "http://" || strStartsWith url "https://" then url
  else "https://" ++ url

/-- The input stage of the demo variant (lines 82-98) viewed as the spec's
normalize contract. -/
def normalize (url : String) : NormResult :=
  if (jsTrim url).isEmpty then .invalidEmpty
  else if isValidURL (urlToCheck url) then .canonical (urlToCheck url)
  else .invalidMalformed

/-- Demo variant checkURL (lines 77-132) as its ordered list of observable
actions. The parameter sim is the outcome of the one awaited promise (the
simulated API delay, line 115): the code awaits it inside try/catch, so a
rejection lands in the catch block and the finally block clears the
loading flag on every path, early return from the suspicious branch
included. -/
def checkURL (url : String) (sim : Except String Unit) : List Event :=
  Event.setMessage "" ::
    (if (jsTrim url).isEmpty then
      [Event.setMessage "⚠ Please enter a URL.", Event.setResultType .rtWarning]
    else if !isValidURL (urlToCheck url) then
      [Event.setMessage "⚠ Please enter a valid URL.", Event.setResultType .rtWarning]
    else
      Event.setLoading true :: Event.setMessage "🔍 Checking URL..." ::
        Event.setResultType .rtLoading ::
        ((if isSuspiciousURL (urlToCheck url) then
            [Event.setMessage "❌ This URL appears to be unsafe! It contains suspicious patterns.",
             Event.setResultType .rtUnsafe, Event.setLoading false]
          else
            Event.transportCall none ::
              (match sim with
               | .ok _ =>
                 if strIncludes (toLowerCase (urlToCheck url)) "example" then
                   [Event.setMessage "❌ This URL is Unsafe! (Malware, Phishing, or Harmful Content Detected)",
                    Event.setResultType .rtUnsafe]
                 else
                   [Event.setMessage "✅ This URL appears to be Safe.",
                    Event.setResultType .rtSafe]
               | .error _ =>
                 [Event.setResultType .rtWarning,
                  Event.setMessage "❌ An error occurred while checking the URL."])) ++
          [Event.setLoading false]))

end Demo

namespace Api

/-- The credential embedded in the API variant (line 381). -/
def API_KEY : String := "Your_Key"

/-- API variant lines 411-427: the Safe Browsing request payload built for
one URL. -/
def requestBody (url : String) : ThreatQuery :=
  { clientId := "url-filtering-app"
    clientVersion := "1.0"
    threatTypes := ["MALWARE", "SOCIAL_ENGINEERING", "UNWANTED_SOFTWARE",
      "POTENTIALLY_HARMFUL_APPLICATION"]
    platformTypes := ["ANY_PLATFORM"]
    threatEntryTypes := ["URL"]
    threatEntries := [url] }

/-- The input stage of the API variant (lines 393-401) viewed as the
spec's normalize contract: only the literally empty string takes the
empty-input branch, and no scheme is prepended before validation. -/
def normalize (url : String) : NormResult :=
  if url.isEmpty then .invalidEmpty
  else if isValidURL url then .canonical url
  else .invalidMalformed

/-- API variant lines 429-450: the actions performed after the fetch is
awaited. A non-2xx status throws before the body is read; the catch block
surfaces the message of whatever was thrown. -/
def responseEvents (tr : TransportResult) : List Event :=
  match tr with
  | .connectionFailure m =>
    [Event.setMessage ("❌ Failed to analyze URL: " ++ m)]
  | .response status body =>
    if 200 ≤ status ∧ status < 300 then
      match body with
      | .error m => [Event.setMessage ("❌ Failed to analyze URL: " ++ m)]
      | .ok data =>
        match data.matchList with
        | some l =>
          if l.length > 0 then
            [Event.setMessage "❌ This URL is *Unsafe*! (Malware, Phishing, or Harmful Content Detected)"]
          else
            [Event.setMessage "✅ This URL is *Safe*."]
        | none => [Event.setMessage "✅ This URL is *Safe*."]
    else
      [Event.setMessage ("❌ Failed to analyze URL: API responded with status: " ++ toString status)]

/-- API variant checkURL (lines 392-454) as its ordered list of observable
actions, parameterized by the outcome of the awaited fetch. The finally
block clears the loading flag on every path. -/
def checkURL (url : String) (tr : TransportResult) : List Event :=
  if url.isEmpty then
    [Event.setMessage "⚠ Please enter a URL."]
  else if !isValidURL url then
    [Event.setMessage "⚠ Please enter a valid URL with http:// or https://"]
  else
    Event.setLoading true :: Event.setMessage "🔍 Checking URL..." ::
      Event.transportCall (some (requestBody url)) ::
      (responseEvents tr ++ [Event.setLoading false])

/-- The spec's abstraction from the API variant's on-screen message to a
verdict: the fixed success messages mean Safe and Unsafe, the progress
message means Pending, the input-stage warnings mean Invalid, and any
other message is the Unknown verdict carrying that message as reason. -/
def classifyMessage (m : String) : Verdict :=
  if strStartsWith m "✅" then .Safe
  else if strStartsWith m "❌ This URL is *Unsafe*" then .Unsafe
  else if strStartsWith m "🔍" then .Pending
  else if strStartsWith m "⚠" then .Invalid
  else .Unknown m

/-- The verdict the API variant ends a run on. -/
def finalVerdict (es : List Event) : Option Verdict :=
  (finalMessage es).map classifyMessage

end Api

theorem strAppendLeftCancel (p a b : String) (h : p ++ a = p ++ b) : a = b := by
  apply String.ext
  have hd := congrArg String.data h
  rw [String.data_append, String.data_append] at hd
  exact List.append_cancel_left hd

theorem strStartsWith_append_left (s r p : String) (h : p.data.length ≤ s.data.length) :
    strStartsWith (s ++ r) p = strStartsWith s p := by
  simp only [strStartsWith, String.data_append]
  cases hb : p.data.isPrefixOf s.data with
  | true =>
    have hp : p.data <+: s.data := List.isPrefixOf_iff_prefix.mp hb
    exact List.isPrefixOf_iff_prefix.mpr (hp.trans (List.prefix_append s.data r.data))
  | false =>
    apply Bool.eq_false_iff.mpr
    intro hcontra
    have hp : p.data <+: s.data ++ r.data := List.isPrefixOf_iff_prefix.mp hcontra
    have htake : p.data = (s.data ++ r.data).take p.data.length :=
      List.prefix_iff_eq_take.mp hp
    rw [List.take_append_of_le_length h] at htake
    have hps : p.data <+: s.data := by
      rw [htake]; exact List.take_prefix _ _
    have : p.data.isPrefixOf s.data = true := List.isPrefixOf_iff_prefix.mpr hps
    rw [hb] at this
    exact Bool.false_ne_true this

theorem runEvents_message (es : List Event) (s : UIState) :
    (runEvents s es).message = (messages es).getLastD s.message := by
  induction es generalizing s with
  | nil => rfl
  | cons e rest ih =>
    cases e with
    | setMessage m =>
      show (runEvents { s with message := m } rest).message =
        (m :: messages rest).getLastD s.message
      rw [List.getLastD_cons]
      exact ih _
    | setResultType t =>
      show (runEvents { s with resultType := t } rest).message =
        (messages rest).getLastD s.message
      exact ih _
    | setLoading b =>
      show (runEvents { s with isLoading := b } rest).message =
        (messages rest).getLastD s.message
      exact ih _
    | transportCall q =>
      exact ih s

theorem runEvents_resultType (es : List Event) (s : UIState) :
    (runEvents s es).resultType = (rtEvents es).getLastD s.resultType := by
  induction es generalizing s with
  | nil => rfl
  | cons e rest ih =>
    cases e with
    | setMessage m =>
      show (runEvents { s with message := m } rest).resultType =
        (rtEvents rest).getLastD s.resultType
      exact ih _
    | setResultType t =>
      show (runEvents { s with resultType := t } rest).resultType =
        (t :: rtEvents rest).getLastD s.resultType
      rw [List.getLastD_cons]
      exact ih _
    | setLoading b =>
      show (runEvents { s with isLoading := b } rest).resultType =
        (rtEvents rest).getLastD s.resultType
      exact ih _
    | transportCall q =>
      exact ih s

theorem getLastD_cons_indep {α : Type} (a : α) (t : List α) (d d' : α) :
    (a :: t).getLastD d = (a :: t).getLastD d' := by
  rw [List.getLastD_cons, List.getLastD_cons]

theorem strStartsWith_jsTrim (u p : String)
    (hpd : p.data.dropWhile Char.isWhitespace = p.data)
    (hpr : p.data.reverse.dropWhile Char.isWhitespace = p.data.reverse)
    (hpe : p.data.isEmpty = false)
    (h : strStartsWith u p = true) :
    strStartsWith (jsTrim u) p = true := by
  obtain ⟨t, ht⟩ := List.isPrefixOf_iff_prefix.mp h
  simp only [strStartsWith, jsTrim]
  rw [List.isPrefixOf_iff_prefix]
  rw [← ht, List.dropWhile_append, hpd, hpe]
  simp only [Bool.false_eq_true, if_false, List.reverse_append, List.dropWhile_append]
  by_cases hc : (t.reverse.dropWhile Char.isWhitespace).isEmpty
  · rw [if_pos hc, hpr, List.reverse_reverse]
  · rw [if_neg hc, List.reverse_append, List.reverse_reverse]
    exact List.prefix_append _ _

theorem not_strStartsWith_of_all_ws (u p : String)
    (hu : u.data.all Char.isWhitespace = true)
    (c : Char) (cs : List Char) (hp : p.data = c :: cs)
    (hc : c.isWhitespace = false) :
    strStartsWith u p = false := by
  apply Bool.eq_false_iff.mpr
  intro h
  obtain ⟨t, ht⟩ := List.isPrefixOf_iff_prefix.mp h
  rw [hp] at ht
  have hmem : c ∈ u.data := by
    rw [← ht]
    exact List.mem_append_left _ (List.mem_cons_self c cs)
  have hws := List.all_eq_true.mp hu c hmem
  rw [hc] at hws
  exact Bool.false_ne_true hws

theorem jsTrim_isEmpty_of_all_ws (u : String)
    (hu : u.data.all Char.isWhitespace = true) :
    (jsTrim u).isEmpty = true := by
  have h1 : u.data.dropWhile Char.isWhitespace = [] :=
    List.dropWhile_eq_nil_iff.mpr fun x hx => List.all_eq_true.mp hu x hx
  simp [jsTrim, h1]
  rfl

theorem isValidURL_eq_false_of_all_ws (u : String)
    (hu : u.data.all Char.isWhitespace = true) :
    isValidURL u = false := by
  have h1 : strStartsWith u "https://" = false := by
    refine not_strStartsWith_of_all_ws u _ hu 'h'
      ['t', 't', 'p', 's', ':', '/', '/'] (by decide) (by decide)
  have h2 : strStartsWith u "http://" = false := by
    refine not_strStartsWith_of_all_ws u _ hu 'h'
      ['t', 't', 'p', ':', '/', '/'] (by decide) (by decide)
  simp [isValidURL, schemeRest, h1, h2]

theorem jsTrim_length_le (u : String) :
    (jsTrim u).data.length ≤ u.data.length := by
  simp only [jsTrim]
  calc (((u.data.dropWhile Char.isWhitespace).reverse.dropWhile
          Char.isWhitespace).reverse).length
      = ((u.data.dropWhile Char.isWhitespace).reverse.dropWhile
          Char.isWhitespace).length := List.length_reverse _
    _ ≤ (u.data.dropWhile Char.isWhitespace).reverse.length :=
        (List.dropWhile_suffix _).length_le
    _ = (u.data.dropWhile Char.isWhitespace).length := List.length_reverse _
    _ ≤ u.data.length := (List.dropWhile_suffix _).length_le

theorem classify_fail_append (r : String) :
    Api.classifyMessage ("❌ Failed to analyze URL: " ++ r) =
      Verdict.Unknown ("❌ Failed to analyze URL: " ++ r) := by
  have h1 : strStartsWith ("❌ Failed to analyze URL: " ++ r) "✅" = false := by
    rw [strStartsWith_append_left _ _ _ (by decide)]; decide
  have h2 : strStartsWith ("❌ Failed to analyze URL: " ++ r)
      "❌ This URL is *Unsafe*" = false := by
    rw [strStartsWith_append_left _ _ _ (by decide)]; decide
  have h3 : strStartsWith ("❌ Failed to analyze URL: " ++ r) "🔍" = false := by
    rw [strStartsWith_append_left _ _ _ (by decide)]; decide
  have h4 : strStartsWith ("❌ Failed to analyze URL: " ++ r) "⚠" = false := by
    rw [strStartsWith_append_left _ _ _ (by decide)]; decide
  simp [Api.classifyMessage, h1, h2, h3, h4]

theorem classify_fail_status_append (r : String) :
    Api.classifyMessage ("❌ Failed to analyze URL: API responded with status: " ++ r) =
      Verdict.Unknown ("❌ Failed to analyze URL: API responded with status: " ++ r) := by
  have h1 : strStartsWith ("❌ Failed to analyze URL: API responded with status: " ++ r)
      "✅" = false := by
    rw [strStartsWith_append_left _ _ _ (by decide)]; decide
  have h2 : strStartsWith ("❌ Failed to analyze URL: API responded with status: " ++ r)
      "❌ This URL is *Unsafe*" = false := by
    rw [strStartsWith_append_left _ _ _ (by decide)]; decide
  have h3 : strStartsWith ("❌ Failed to analyze URL: API responded with status: " ++ r)
      "🔍" = false := by
    rw [strStartsWith_append_left _ _ _ (by decide)]; decide
  have h4 : strStartsWith ("❌ Failed to analyze URL: API responded with status: " ++ r)
      "⚠" = false := by
    rw [strStartsWith_append_left _ _ _ (by decide)]; decide
  simp [Api.classifyMessage, h1, h2, h3, h4]

theorem responseEvents_terminal (tr : TransportResult) :
    ∃ m, Api.responseEvents tr = [Event.setMessage m] ∧
      terminalVerdict (Api.classifyMessage m) = true := by
  cases tr with
  | connectionFailure msg =>
    refine ⟨"❌ Failed to analyze URL: " ++ msg, rfl, ?_⟩
    rw [classify_fail_append]
    rfl
  | response status body =>
    by_cases hs : 200 ≤ status ∧ status < 300
    · cases body with
      | error msg =>
        refine ⟨"❌ Failed to analyze URL: " ++ msg, by simp [Api.responseEvents, hs], ?_⟩
        rw [classify_fail_append]
        rfl
      | ok data =>
        cases hml : data.matchList with
        | none =>
          exact ⟨"✅ This URL is *Safe*.", by simp [Api.responseEvents, hs, hml], by decide⟩
        | some l =>
          by_cases hl : l.length > 0
          · exact ⟨"❌ This URL is *Unsafe*! (Malware, Phishing, or Harmful Content Detected)",
              by simp [Api.responseEvents, hs, hml, hl], by decide⟩
          · exact ⟨"✅ This URL is *Safe*.",
              by simp [Api.responseEvents, hs, hml, hl], by decide⟩
    · refine ⟨"❌ Failed to analyze URL: API responded with status: " ++ toString status,
        by simp [Api.responseEvents, hs], ?_⟩
      rw [classify_fail_status_append]
      rfl

theorem api_finalVerdict_valid (url : String) (hurl : url.isEmpty = false)
    (hv : isValidURL url = true) (tr : TransportResult) (m : String)
    (hm : Api.responseEvents tr = [Event.setMessage m]) :
    Api.finalVerdict (Api.checkURL url tr) = some (Api.classifyMessage m) := by
  simp [Api.checkURL, hurl, hv, hm, Api.finalVerdict, finalMessage, messages]

/-- Claim C1: for every successful (2xx) response from the lookup service,
the API variant's check ends on the Unsafe verdict when the response's
matches field is a non-empty list, and on the Safe verdict when the
response reports no matches, including when the matches field is entirely
absent from a syntactically valid JSON body: absence behaves as no
matches, not as a malformed-response error. -/
theorem api_success_verdict (url : String) (hurl : url.isEmpty = false)
    (hv : isValidURL url = true) (status : Nat)
    (hs : 200 ≤ status ∧ status < 300) (ml : Option (List ThreatMatch)) :
    Api.finalVerdict (Api.checkURL url (.response status (.ok ⟨ml⟩))) =
      some (match ml with
            | some l => if l.length > 0 then Verdict.Unsafe else Verdict.Safe
            | none => Verdict.Safe) := by
  cases ml with
  | none =>
    rw [api_finalVerdict_valid url hurl hv _ "✅ This URL is *Safe*."
      (by simp [Api.responseEvents, hs])]
    decide
  | some l =>
    by_cases hl : l.length > 0
    · rw [api_finalVerdict_valid url hurl hv _
        "❌ This URL is *Unsafe*! (Malware, Phishing, or Harmful Content Detected)"
        (by simp [Api.responseEvents, hs, hl])]
      simp [hl]
      decide
    · rw [api_finalVerdict_valid url hurl hv _ "✅ This URL is *Safe*."
        (by simp [Api.responseEvents, hs, hl])]
      simp [hl]
      decide

/-- Witness for claim C1 at the concrete URL https://good.test with a 2xx
response whose matches field is absent. -/
theorem api_success_verdict_witness :
    ("https://good.test" : String).isEmpty = false ∧
    isValidURL "https://good.test" = true ∧ (200 ≤ 200 ∧ 200 < 300) ∧
    Api.finalVerdict (Api.checkURL "https://good.test"
        (.response 200 (.ok ⟨none⟩))) = some Verdict.Safe :=
  ⟨by decide, by decide, by decide,
    api_success_verdict "https://good.test" (by decide) (by decide) 200
      (by decide) none⟩

/-- Claim C7: for every canonical URL that passes validation (and in
particular every one passing the heuristic pre-check), the outbound
ThreatQuery built by the API variant names exactly the four threat
categories MALWARE, SOCIAL_ENGINEERING, UNWANTED_SOFTWARE and
POTENTIALLY_HARMFUL_APPLICATION, platform scope ANY_PLATFORM, entry type
URL, and exactly one threat entry holding the single canonical URL; the
category, platform and entry-type lists are non-empty and identical for
every invocation. -/
theorem api_threat_query_shape (url : String) (hurl : url.isEmpty = false)
    (hv : isValidURL url = true) (_hh : isSuspiciousURL url = false)
    (tr : TransportResult) :
    transportEvents (Api.checkURL url tr) = [some (Api.requestBody url)] ∧
    (Api.requestBody url).threatTypes =
      ["MALWARE", "SOCIAL_ENGINEERING", "UNWANTED_SOFTWARE",
       "POTENTIALLY_HARMFUL_APPLICATION"] ∧
    (Api.requestBody url).platformTypes = ["ANY_PLATFORM"] ∧
    (Api.requestBody url).threatEntryTypes = ["URL"] ∧
    (Api.requestBody url).threatEntries = [url] ∧
    (Api.requestBody url).threatTypes ≠ [] ∧
    (Api.requestBody url).platformTypes ≠ [] ∧
    (Api.requestBody url).threatEntryTypes ≠ [] ∧
    ∀ u₁ u₂ : String,
      (Api.requestBody u₁).threatTypes = (Api.requestBody u₂).threatTypes ∧
      (Api.requestBody u₁).platformTypes = (Api.requestBody u₂).platformTypes ∧
      (Api.requestBody u₁).threatEntryTypes = (Api.requestBody u₂).threatEntryTypes := by
  obtain ⟨m, hm, -⟩ := responseEvents_terminal tr
  refine ⟨?_, rfl, rfl, rfl, rfl, by simp [Api.requestBody],
    by simp [Api.requestBody], by simp [Api.requestBody],
    fun u₁ u₂ => ⟨rfl, rfl, rfl⟩⟩
  simp [Api.checkURL, hurl, hv, hm, transportEvents]

/-- Witness for claim C7 at the concrete URL https://good.test. -/
theorem api_threat_query_shape_witness :
    ("https://good.test" : String).isEmpty = false ∧
    isValidURL "https://good.test" = true ∧
    isSuspiciousURL "https://good.test" = false ∧
    transportEvents (Api.checkURL "https://good.test"
        (.connectionFailure "Failed to fetch")) =
      [some (Api.requestBody "https://good.test")] :=
  ⟨by decide, by decide, by decide,
    (api_threat_query_shape "https://good.test" (by decide) (by decide)
      (by decide) (.connectionFailure "Failed to fetch")).1⟩

/-- Claim C10: in the local-demo variant, for every canonical URL that
passes validation and matches no heuristic denylist pattern, the verdict
is Unsafe exactly when the lowercased URL contains the substring example,
and Safe otherwise, exactly as the code behaves (the adjacent source
comment about URLs containing the substring test being the safe ones does
not describe a check the code performs). -/
theorem demo_example_substring_verdict (url : String)
    (he : (jsTrim url).isEmpty = false)
    (hv : isValidURL (Demo.urlToCheck url) = true)
    (hns : isSuspiciousURL (Demo.urlToCheck url) = false) :
    finalRT (Demo.checkURL url (.ok ())) =
      some (if strIncludes (toLowerCase (Demo.urlToCheck url)) "example" then
              ResultType.rtUnsafe
            else ResultType.rtSafe) := by
  cases hex : strIncludes (toLowerCase (Demo.urlToCheck url)) "example" with
  | true => simp [Demo.checkURL, he, hv, hns, hex, finalRT, rtEvents]
  | false => simp [Demo.checkURL, he, hv, hns, hex, finalRT, rtEvents]

/-- Witness for claim C10 at the concrete URL https://example.org. -/
theorem demo_example_substring_verdict_witness :
    (jsTrim "https://example.org").isEmpty = false ∧
    isValidURL (Demo.urlToCheck "https://example.org") = true ∧
    isSuspiciousURL (Demo.urlToCheck "https://example.org") = false ∧
    finalRT (Demo.checkURL "https://example.org" (.ok ())) =
      some ResultType.rtUnsafe :=
  ⟨by decide, by decide, by decide,
    demo_example_substring_verdict "https://example.org" (by decide) (by decide)
      (by decide)⟩

/-- Claim C2: for every canonical URL whose lowercased text contains the
substring malware (and more generally any denylist substring, or a
dotted-IPv4 host in the authority position), the demo variant's check
returns the Unsafe verdict through the local heuristic short-circuit
without invoking the external transport: the transport is called zero
times for that input. -/
theorem demo_heuristic_short_circuit (url : String) (sim : Except String Unit)
    (he : (jsTrim url).isEmpty = false)
    (hv : isValidURL (Demo.urlToCheck url) = true)
    (hs : strIncludes (toLowerCase (Demo.urlToCheck url)) "malware" = true ∨
      (∃ p ∈ MALICIOUS_PATTERNS,
        strIncludes (toLowerCase (Demo.urlToCheck url)) p = true) ∨
      ipPatternTest (Demo.urlToCheck url) = true) :
    transportCount (Demo.checkURL url sim) = 0 ∧
      finalRT (Demo.checkURL url sim) = some ResultType.rtUnsafe := by
  have hsusp : isSuspiciousURL (Demo.urlToCheck url) = true := by
    show (MALICIOUS_PATTERNS.any
        (fun pattern => strIncludes (toLowerCase (Demo.urlToCheck url)) pattern) ||
      ipPatternTest (Demo.urlToCheck url)) = true
    rcases hs with h | ⟨p, hp, h⟩ | h
    · rw [List.any_eq_true.mpr ⟨"malware", by decide, h⟩, Bool.true_or]
    · rw [List.any_eq_true.mpr ⟨p, hp, h⟩, Bool.true_or]
    · rw [h, Bool.or_true]
  constructor
  · simp [Demo.checkURL, he, hv, hsusp, transportCount, transportEvents]
  · simp [Demo.checkURL, he, hv, hsusp, finalRT, rtEvents]

/-- Witness for claim C2 at the concrete URL https://malware.com. -/
theorem demo_heuristic_short_circuit_witness :
    (jsTrim "https://malware.com").isEmpty = false ∧
    isValidURL (Demo.urlToCheck "https://malware.com") = true ∧
    strIncludes (toLowerCase (Demo.urlToCheck "https://malware.com"))
      "malware" = true ∧
    (transportCount (Demo.checkURL "https://malware.com" (.ok ())) = 0 ∧
      finalRT (Demo.checkURL "https://malware.com" (.ok ())) =
        some ResultType.rtUnsafe) :=
  ⟨by decide, by decide, by decide,
    demo_heuristic_short_circuit "https://malware.com" (.ok ()) (by decide)
      (by decide) (Or.inl (by decide))⟩

/-- Counterexample for claim C8: the input with one leading space before
example.com is not trimmed before the canonical URL is derived, so it
yields the malformed canonical candidate and is rejected, while the same
input without the space yields the canonical URL https://example.com; the
two inputs do not produce the same canonical URL. -/
theorem demo_untrimmed_canonical_counterexample :
    Demo.urlToCheck " example.com" ≠ Demo.urlToCheck "example.com" ∧
    jsTrim " example.com" = "example.com" ∧
    Demo.normalize " example.com" = NormResult.invalidMalformed ∧
    Demo.normalize "example.com" = NormResult.canonical "https://example.com" := by
  decide

/-- Claim C8 as amended: the demo variant trims the raw input only to test
for emptiness; the canonical URL is derived from the untrimmed text, so
every input that differs from its trimmed form (that is, carries leading
or trailing whitespace) produces a canonical candidate different from the
one its trimmed form produces. -/
theorem demo_canonical_from_untrimmed (url : String) (h : url ≠ jsTrim url) :
    Demo.urlToCheck url ≠ Demo.urlToCheck (jsTrim url) := by
  cases hb : (strStartsWith url "http://" || strStartsWith url "https://") with
  | true =>
    have ht : Demo.urlToCheck url = url := by simp [Demo.urlToCheck, hb]
    rw [Bool.or_eq_true] at hb
    have htb : (strStartsWith (jsTrim url) "http://" ||
        strStartsWith (jsTrim url) "https://") = true := by
      rcases hb with h1 | h1
      · rw [strStartsWith_jsTrim url "http://" (by decide) (by decide) (by decide) h1,
          Bool.true_or]
      · rw [strStartsWith_jsTrim url "https://" (by decide) (by decide) (by decide) h1,
          Bool.or_true]
    have ht2 : Demo.urlToCheck (jsTrim url) = jsTrim url := by
      simp [Demo.urlToCheck, htb]
    rw [ht, ht2]
    exact h
  | false =>
    have ht : Demo.urlToCheck url = "https://" ++ url := by simp [Demo.urlToCheck, hb]
    rw [ht]
    cases hc : (strStartsWith (jsTrim url) "http://" ||
        strStartsWith (jsTrim url) "https://") with
    | false =>
      have ht2 : Demo.urlToCheck (jsTrim url) = "https://" ++ jsTrim url := by
        simp [Demo.urlToCheck, hc]
      rw [ht2]
      intro heq
      exact h (strAppendLeftCancel _ _ _ heq)
    | true =>
      have ht2 : Demo.urlToCheck (jsTrim url) = jsTrim url := by
        simp [Demo.urlToCheck, hc]
      rw [ht2]
      intro heq
      have hlen := congrArg (fun s => s.data.length) heq
      simp only [String.data_append, List.length_append] at hlen
      have h8 : ("https://" : String).data.length = 8 := by decide
      rw [h8] at hlen
      have hle := jsTrim_length_le url
      omega

/-- Witness for the amended claim C8 at the input with a leading space. -/
theorem demo_canonical_from_untrimmed_witness :
    (" example.com" : String) ≠ jsTrim " example.com" ∧
    Demo.urlToCheck " example.com" ≠ Demo.urlToCheck (jsTrim " example.com") :=
  ⟨by decide, demo_canonical_from_untrimmed " example.com" (by decide)⟩

/-- Counterexample for claim C5: in the API variant a whitespace-only
input is truthy, so it skips the empty-input branch and is rejected by
the validator with the malformed-URL warning, not with the empty reason
the claim requires. -/
theorem api_whitespace_reason_counterexample :
    "   ".data.all Char.isWhitespace = true ∧
    Api.normalize "   " = NormResult.invalidMalformed ∧
    Api.normalize "   " ≠ NormResult.invalidEmpty ∧
    messages (Api.checkURL "   " (.connectionFailure "x")) =
      ["⚠ Please enter a valid URL with http:// or https://"] := by
  decide

/-- Claim C5 as amended: every empty or whitespace-only input yields
Invalid and never reaches the network stage in either variant; the demo
variant reports the empty reason for all such inputs, while the API
variant reports the empty reason only for the literally empty string and
rejects non-empty whitespace-only input as malformed. -/
theorem blank_input_invalid_no_network (url : String)
    (hws : url.data.all Char.isWhitespace = true)
    (sim : Except String Unit) (tr : TransportResult) :
    Demo.normalize url = NormResult.invalidEmpty ∧
    transportCount (Demo.checkURL url sim) = 0 ∧
    Api.normalize url =
      (if url.isEmpty then NormResult.invalidEmpty
       else NormResult.invalidMalformed) ∧
    transportCount (Api.checkURL url tr) = 0 := by
  have htr := jsTrim_isEmpty_of_all_ws url hws
  refine ⟨by simp [Demo.normalize, htr], ?_, ?_, ?_⟩
  · simp [Demo.checkURL, htr, transportCount, transportEvents]
  · cases he : url.isEmpty with
    | true => simp [Api.normalize, he]
    | false => simp [Api.normalize, he, isValidURL_eq_false_of_all_ws url hws]
  · cases he : url.isEmpty with
    | true => simp [Api.checkURL, he, transportCount, transportEvents]
    | false =>
      simp [Api.checkURL, he, isValidURL_eq_false_of_all_ws url hws,
        transportCount, transportEvents]

/-- Witness for the amended claim C5 at the three-space input. -/
theorem blank_input_invalid_no_network_witness :
    "   ".data.all Char.isWhitespace = true ∧
    ("   " : String).isEmpty = false ∧
    (Demo.normalize "   " = NormResult.invalidEmpty ∧
      transportCount (Demo.checkURL "   " (.ok ())) = 0 ∧
      Api.normalize "   " =
        (if ("   " : String).isEmpty then NormResult.invalidEmpty
         else NormResult.invalidMalformed) ∧
      transportCount (Api.checkURL "   " (.connectionFailure "x")) = 0) :=
  ⟨by decide, by decide,
    blank_input_invalid_no_network "   " (by decide) (.ok ())
      (.connectionFailure "x")⟩

/-- Claim C3: every failure of the external call ends on the Unknown
verdict with a human-readable reason; a transport connection failure
surfaces the transport's own message (the spec's NetworkUnavailable), an
HTTP 403 surfaces the status-bearing message for 403 (ServiceRejected),
and an HTTP 429 surfaces the status-bearing message for 429 (RateLimited),
and the three reasons are pairwise distinct whenever the transport's
message is not itself one of the two status templates. -/
theorem api_failure_unknown_distinct (url : String) (hurl : url.isEmpty = false)
    (hv : isValidURL url = true) (netMsg : String)
    (hn1 : netMsg ≠ "API responded with status: 403")
    (hn2 : netMsg ≠ "API responded with status: 429")
    (body : Except String ApiResponse) :
    Api.finalVerdict (Api.checkURL url (.connectionFailure netMsg)) =
      some (Verdict.Unknown ("❌ Failed to analyze URL: " ++ netMsg)) ∧
    Api.finalVerdict (Api.checkURL url (.response 403 body)) =
      some (Verdict.Unknown
        "❌ Failed to analyze URL: API responded with status: 403") ∧
    Api.finalVerdict (Api.checkURL url (.response 429 body)) =
      some (Verdict.Unknown
        "❌ Failed to analyze URL: API responded with status: 429") ∧
    "❌ Failed to analyze URL: " ++ netMsg ≠
      "❌ Failed to analyze URL: API responded with status: 403" ∧
    "❌ Failed to analyze URL: " ++ netMsg ≠
      "❌ Failed to analyze URL: API responded with status: 429" ∧
    ("❌ Failed to analyze URL: API responded with status: 403" : String) ≠
      "❌ Failed to analyze URL: API responded with status: 429" := by
  refine ⟨?_, ?_, ?_, ?_, ?_, by decide⟩
  · rw [api_finalVerdict_valid url hurl hv (.connectionFailure netMsg)
      ("❌ Failed to analyze URL: " ++ netMsg) rfl, classify_fail_append]
  · rw [api_finalVerdict_valid url hurl hv _
      ("❌ Failed to analyze URL: API responded with status: " ++ toString 403)
      (by simp [Api.responseEvents]), classify_fail_status_append]
    decide
  · rw [api_finalVerdict_valid url hurl hv _
      ("❌ Failed to analyze URL: API responded with status: " ++ toString 429)
      (by simp [Api.responseEvents]), classify_fail_status_append]
    decide
  · intro heq
    have h403 : ("❌ Failed to analyze URL: API responded with status: 403" : String) =
        "❌ Failed to analyze URL: " ++ "API responded with status: 403" := by decide
    rw [h403] at heq
    exact hn1 (strAppendLeftCancel _ _ _ heq)
  · intro heq
    have h429 : ("❌ Failed to analyze URL: API responded with status: 429" : String) =
        "❌ Failed to analyze URL: " ++ "API responded with status: 429" := by decide
    rw [h429] at heq
    exact hn2 (strAppendLeftCancel _ _ _ heq)

/-- Witness for claim C3 with the transport message Failed to fetch. -/
theorem api_failure_unknown_distinct_witness :
    ("https://good.test" : String).isEmpty = false ∧
    isValidURL "https://good.test" = true ∧
    ("Failed to fetch" : String) ≠ "API responded with status: 403" ∧
    ("Failed to fetch" : String) ≠ "API responded with status: 429" ∧
    (Api.finalVerdict (Api.checkURL "https://good.test"
        (.connectionFailure "Failed to fetch")) =
      some (Verdict.Unknown ("❌ Failed to analyze URL: " ++ "Failed to fetch")) ∧
    Api.finalVerdict (Api.checkURL "https://good.test"
        (.response 403 (.ok ⟨none⟩))) =
      some (Verdict.Unknown
        "❌ Failed to analyze URL: API responded with status: 403") ∧
    Api.finalVerdict (Api.checkURL "https://good.test"
        (.response 429 (.ok ⟨none⟩))) =
      some (Verdict.Unknown
        "❌ Failed to analyze URL: API responded with status: 429") ∧
    "❌ Failed to analyze URL: " ++ "Failed to fetch" ≠
      "❌ Failed to analyze URL: API responded with status: 403" ∧
    "❌ Failed to analyze URL: " ++ "Failed to fetch" ≠
      "❌ Failed to analyze URL: API responded with status: 429" ∧
    ("❌ Failed to analyze URL: API responded with status: 403" : String) ≠
      "❌ Failed to analyze URL: API responded with status: 429") :=
  ⟨by decide, by decide, by decide, by decide,
    api_failure_unknown_distinct "https://good.test" (by decide) (by decide)
      "Failed to fetch" (by decide) (by decide) (.ok ⟨none⟩)⟩

/-- Claim C6: every invocation of check on a canonical URL emits exactly
one Pending transition followed by exactly one terminal transition (Safe,
Unsafe, or Unknown), never zero and never more than one of each, and the
Pending loading state is cleared on every exit path, including when the
transport raises an exception: in the demo variant the resultType
sequence after validation is exactly the loading state followed by one
terminal state, and in the API variant the message sequence is exactly
the progress message followed by one terminal message, with the loading
flag set and then cleared. -/
theorem check_state_sequence (url : String) (sim : Except String Unit)
    (tr : TransportResult) :
    ((jsTrim url).isEmpty = false → isValidURL (Demo.urlToCheck url) = true →
      (∃ t, rtEvents (Demo.checkURL url sim) = [ResultType.rtLoading, t] ∧
          terminalRT t = true) ∧
        (loadingEvents (Demo.checkURL url sim)).head? = some true ∧
        (loadingEvents (Demo.checkURL url sim)).getLast? = some false) ∧
    (url.isEmpty = false → isValidURL url = true →
      (∃ m, messages (Api.checkURL url tr) = ["🔍 Checking URL...", m] ∧
          terminalVerdict (Api.classifyMessage m) = true) ∧
        loadingEvents (Api.checkURL url tr) = [true, false]) := by
  constructor
  · intro hd1 hd2
    cases hsusp : isSuspiciousURL (Demo.urlToCheck url) with
    | true =>
      refine ⟨⟨.rtUnsafe, ?_, rfl⟩, ?_, ?_⟩ <;>
        simp [Demo.checkURL, hd1, hd2, hsusp, rtEvents, loadingEvents]
    | false =>
      cases sim with
      | error e =>
        refine ⟨⟨.rtWarning, ?_, rfl⟩, ?_, ?_⟩ <;>
          simp [Demo.checkURL, hd1, hd2, hsusp, rtEvents, loadingEvents]
      | ok u =>
        cases hex : strIncludes (toLowerCase (Demo.urlToCheck url)) "example" with
        | true =>
          refine ⟨⟨.rtUnsafe, ?_, rfl⟩, ?_, ?_⟩ <;>
            simp [Demo.checkURL, hd1, hd2, hsusp, hex, rtEvents, loadingEvents]
        | false =>
          refine ⟨⟨.rtSafe, ?_, rfl⟩, ?_, ?_⟩ <;>
            simp [Demo.checkURL, hd1, hd2, hsusp, hex, rtEvents, loadingEvents]
  · intro ha1 ha2
    obtain ⟨m, hm, ht⟩ := responseEvents_terminal tr
    refine ⟨⟨m, ?_, ht⟩, ?_⟩
    · simp [Api.checkURL, ha1, ha2, hm, messages]
    · simp [Api.checkURL, ha1, ha2, hm, loadingEvents]

/-- Witness for claim C6 at https://good.test with a rejecting simulated
delay for the demo variant and a connection failure for the API variant. -/
theorem check_state_sequence_witness :
    (jsTrim "https://good.test").isEmpty = false ∧
    isValidURL (Demo.urlToCheck "https://good.test") = true ∧
    ("https://good.test" : String).isEmpty = false ∧
    isValidURL "https://good.test" = true ∧
    ((∃ t, rtEvents (Demo.checkURL "https://good.test" (.error "boom")) =
          [ResultType.rtLoading, t] ∧ terminalRT t = true) ∧
      (loadingEvents (Demo.checkURL "https://good.test"
          (.error "boom"))).head? = some true ∧
      (loadingEvents (Demo.checkURL "https://good.test"
          (.error "boom"))).getLast? = some false) ∧
    ((∃ m, messages (Api.checkURL "https://good.test"
          (.connectionFailure "Failed to fetch")) = ["🔍 Checking URL...", m] ∧
          terminalVerdict (Api.classifyMessage m) = true) ∧
      loadingEvents (Api.checkURL "https://good.test"
          (.connectionFailure "Failed to fetch")) = [true, false]) :=
  ⟨by decide, by decide, by decide, by decide,
    (check_state_sequence "https://good.test" (.error "boom")
        (.connectionFailure "Failed to fetch")).1 (by decide) (by decide),
    (check_state_sequence "https://good.test" (.error "boom")
        (.connectionFailure "Failed to fetch")).2 (by decide) (by decide)⟩

theorem demo_rt_shape (url : String) (sim : Except String Unit) :
    ∃ a l, rtEvents (Demo.checkURL url sim) = a :: l := by
  cases h1 : (jsTrim url).isEmpty with
  | true => exact ⟨.rtWarning, [], by simp [Demo.checkURL, h1, rtEvents]⟩
  | false =>
    cases h2 : isValidURL (Demo.urlToCheck url) with
    | false => exact ⟨.rtWarning, [], by simp [Demo.checkURL, h1, h2, rtEvents]⟩
    | true =>
      cases h3 : isSuspiciousURL (Demo.urlToCheck url) with
      | true =>
        exact ⟨.rtLoading, [.rtUnsafe],
          by simp [Demo.checkURL, h1, h2, h3, rtEvents]⟩
      | false =>
        cases sim with
        | error e =>
          exact ⟨.rtLoading, [.rtWarning],
            by simp [Demo.checkURL, h1, h2, h3, rtEvents]⟩
        | ok u =>
          cases h4 : strIncludes (toLowerCase (Demo.urlToCheck url)) "example" with
          | true =>
            exact ⟨.rtLoading, [.rtUnsafe],
              by simp [Demo.checkURL, h1, h2, h3, h4, rtEvents]⟩
          | false =>
            exact ⟨.rtLoading, [.rtSafe],
              by simp [Demo.checkURL, h1, h2, h3, h4, rtEvents]⟩

/-- Claim C9: check is deterministic and idempotent. The demo variant's
checkURL and the normalizer are pure functions of the input and the
transport outcome, so the final message and resultType do not depend on
the component state the run starts from, and running the same check twice
in sequence with the same deterministic transport outcome leaves the same
verdict as running it once. -/
theorem demo_check_deterministic_idempotent (url : String)
    (sim : Except String Unit) (s t : UIState) :
    ((runEvents s (Demo.checkURL url sim)).message =
        (runEvents t (Demo.checkURL url sim)).message ∧
      (runEvents s (Demo.checkURL url sim)).resultType =
        (runEvents t (Demo.checkURL url sim)).resultType) ∧
    ((runEvents (runEvents s (Demo.checkURL url sim))
          (Demo.checkURL url sim)).message =
        (runEvents s (Demo.checkURL url sim)).message ∧
      (runEvents (runEvents s (Demo.checkURL url sim))
          (Demo.checkURL url sim)).resultType =
        (runEvents s (Demo.checkURL url sim)).resultType) := by
  have key : ∀ a b : UIState,
      (runEvents a (Demo.checkURL url sim)).message =
        (runEvents b (Demo.checkURL url sim)).message ∧
      (runEvents a (Demo.checkURL url sim)).resultType =
        (runEvents b (Demo.checkURL url sim)).resultType := by
    intro a b
    constructor
    · rw [runEvents_message, runEvents_message]
      show ("" :: messages _).getLastD a.message =
        ("" :: messages _).getLastD b.message
      exact getLastD_cons_indep _ _ _ _
    · rw [runEvents_resultType, runEvents_resultType]
      obtain ⟨x, l, hxl⟩ := demo_rt_shape url sim
      rw [hxl]
      exact getLastD_cons_indep _ _ _ _
  exact ⟨key s t, key (runEvents s (Demo.checkURL url sim)) s⟩
